import Mathlib

/-
Shallow embedding of the Fintrix/Shopify reconciliation server
(src/index.js).  The file concatenates two versions of the server; the
claims cite the first version (lines 1-201) plus the second copy's
webhook verifier (lines 224-232).  In-memory JS Maps are embedded as
association lists with get/set/delete operations matching Map semantics;
external HTTP calls (gateway, storefront) are embedded by passing the
reply as an explicit argument and recording in the result whether the
call was issued; crypto HMAC is an uninterpreted function parameter.
-/

namespace Fintrix

/-- Lookup in a JS Map embedded as an association list (Map.get). -/
def mapGet : List (String × String) → String → Option String
  | [], _ => none
  | p :: rest, k => if p.1 = k then some p.2 else mapGet rest k

/-- Removal from a JS Map (Map.delete). -/
def mapDelete : List (String × String) → String → List (String × String)
  | [], _ => []
  | p :: rest, k => if p.1 = k then mapDelete rest k else p :: mapDelete rest k

/-- Insertion/overwrite in a JS Map (Map.set). -/
def mapSet (m : List (String × String)) (k v : String) : List (String × String) :=
  (k, v) :: mapDelete m k

/-- JS truthiness for an optional string: undefined and the empty string
are falsy; models checks such as `if (paymentUrl)` and the or-chain
`a?.phone || b?.phone`. -/
def jsTruthy : Option String → Option String
  | none => none
  | some s => if s = "" then none else some s

/-- The two in-memory stores of the server: `paymentUrls` (Shopify
order id to payment URL) and `orderIdToRefId` (Shopify order id to
Fintrix refId), src/index.js lines 18-19. -/
structure ServerState where
  paymentUrls : List (String × String)
  orderIdToRefId : List (String × String)
deriving DecidableEq, Repr

/-- Reference generation, src/index.js line 74:
`const refId = 'LIK' + orderId + Date.now();` -/
def mkRefId (orderId : String) (now : Nat) : String :=
  "LIK" ++ orderId ++ toString now

/-- The scan of `order_id.match(/LIK(\x7bd+})/)` (with \d for digits),
src/index.js line 131: find the first occurrence of the letters LIK
followed by at least one digit and capture the maximal digit run. -/
def likScan : List Char → Option (List Char)
  | [] => none
  | c :: rest =>
    match c, rest with
    | 'L', 'I' :: 'K' :: tl =>
      let ds := tl.takeWhile Char.isDigit
      if ds.isEmpty then likScan rest else some ds
    | _, _ => likScan rest

/-- Extraction of the Shopify order id from a gateway order identifier,
src/index.js lines 131-132. -/
def extractShopifyOrderId (s : String) : Option String :=
  (likScan s.toList).map String.mk

/-- A parsed Shopify order-creation event, with the fields the handler
reads (src/index.js lines 62-76).  Optional fields are absent when the
JSON path is missing. -/
structure ShopifyOrder where
  id : String
  financial_status : String
  billing_phone : Option String
  shipping_phone : Option String
  total_price : String
  order_status_url : String
  note : Option String
deriving DecidableEq, Repr

/-- Phone resolution, src/index.js line 68:
`order.billing_address?.phone || order.shipping_address?.phone`. -/
def resolvePhone (o : ShopifyOrder) : Option String :=
  (jsTruthy o.billing_phone).orElse (fun _ => jsTruthy o.shipping_phone)

/-- Reply of the Fintrix create-order call: a JSON body with its
`status` field (the code tests `response.data.status === true`) and
`result.payment_url`, or a transport error (axios throw). -/
inductive GatewayReply where
  | ok (statusTrue : Bool) (paymentUrl : String)
  | transportError
deriving DecidableEq, Repr

/-- HTTP response of the /shopify-order-webhook handler. -/
inductive IntakeResponse where
  | notPending
  | missingMobile
  | orderProcessed
  | providerError
  | serverError
deriving DecidableEq, Repr

/-- Result of one run of the intake handler: the HTTP response, the
updated stores, whether the Fintrix create-order call was issued, and
the `order_id` (refId) it was issued with. -/
structure IntakeResult where
  response : IntakeResponse
  state : ServerState
  gatewayCalled : Bool
  gatewayOrderId : Option String
deriving DecidableEq, Repr

/-- The /shopify-order-webhook handler body, src/index.js lines 61-103.
`now` is the value of Date.now() during the run and `reply` the outcome
of the awaited axios.post to the gateway. -/
def shopifyOrderWebhook (st : ServerState) (o : ShopifyOrder) (now : Nat)
    (reply : GatewayReply) : IntakeResult :=
  if o.financial_status ≠ "pending" then
    ⟨.notPending, st, false, none⟩
  else
    match resolvePhone o with
    | none => ⟨.missingMobile, st, false, none⟩
    | some _mobile =>
      let refId := mkRefId o.id now
      match reply with
      | .transportError => ⟨.serverError, st, true, some refId⟩
      | .ok statusTrue url =>
        if statusTrue then
          ⟨.orderProcessed,
            { paymentUrls := mapSet st.paymentUrls o.id url,
              orderIdToRefId := mapSet st.orderIdToRefId o.id refId },
            true, some refId⟩
        else
          ⟨.providerError, st, true, some refId⟩

/-- Response of GET /get-payment-url. -/
inductive LinkResponse where
  | link (url : String)
  | nullLink
deriving DecidableEq, Repr

/-- The /get-payment-url handler, src/index.js lines 108-117: read the
stored URL; when truthy, delete it and return it, otherwise return
null. -/
def getPaymentUrl (st : ServerState) (orderId : String) :
    LinkResponse × ServerState :=
  match mapGet st.paymentUrls orderId with
  | some url =>
    if url = "" then (.nullLink, st)
    else (.link url, { st with paymentUrls := mapDelete st.paymentUrls orderId })
  | none => (.nullLink, st)

/-- JS String.toUpperCase, applied character by character. -/
def jsToUpper (s : String) : String :=
  String.mk (s.toList.map Char.toUpper)

/-- A parsed Fintrix payment-result event, src/index.js line 126. -/
structure PayinEvent where
  order_id : Option String
  status : Option String
  amount : String
  utr : String
  message : String
deriving DecidableEq, Repr

/-- HTTP response of the /payin-webhook handler. -/
inductive PayinResponse where
  | invalidPayload
  | invalidRefFormat
  | notSuccessful
  | captured
  | serverError
deriving DecidableEq, Repr

/-- Reply of the Shopify transaction-capture call: success, or a
transport error (axios throw). -/
inductive CaptureReply where
  | ok
  | transportError
deriving DecidableEq, Repr

/-- Result of one run of the reconciliation handler: the HTTP response
and, when a storefront capture call was issued, the Shopify order id it
was issued against. -/
structure PayinResult where
  response : PayinResponse
  captureCall : Option String
deriving DecidableEq, Repr

/-- The /payin-webhook handler body, src/index.js lines 125-165.  Note
that it consults no store: the Shopify order id is recovered from the
incoming `order_id` purely by the LIK-digits pattern, and no order
status is read before the capture call. -/
def payinWebhook (e : PayinEvent) (reply : CaptureReply) : PayinResult :=
  match jsTruthy e.order_id, jsTruthy e.status with
  | some oid, some st =>
    match extractShopifyOrderId oid with
    | none => ⟨.invalidRefFormat, none⟩
    | some shopifyOrderId =>
      if jsToUpper st ≠ "SUCCESS" then ⟨.notSuccessful, none⟩
      else
        match reply with
        | .ok => ⟨.captured, some shopifyOrderId⟩
        | .transportError => ⟨.serverError, some shopifyOrderId⟩
  | _, _ => ⟨.invalidPayload, none⟩

/-- An inbound HTTP request as the verifiers see it: headers plus the
raw body bytes (as a string). -/
structure RawRequest where
  headers : List (String × String)
  body : String
deriving DecidableEq, Repr

/-- Header lookup (req.get); absent headers are undefined. -/
def getHeader (req : RawRequest) (name : String) : Option String :=
  mapGet req.headers name

/-- Outcome of an Express verification middleware: pass control to the
downstream handler, or reject with 401. -/
inductive VerifyOutcome where
  | next
  | reject401
deriving DecidableEq, Repr

/-- The verifyShopifyWebhook middleware, src/index.js lines 22-38: HMAC
over the exact raw body bytes with the shared secret, compared with the
X-Shopify-Hmac-Sha256 header; mismatch (including an absent header)
responds 401 without calling next().  `hmac secret body` stands for the
base64 SHA-256 HMAC computed by the crypto library. -/
def verifyShopifyWebhook (hmac : String → String → String) (secret : String)
    (req : RawRequest) : VerifyOutcome :=
  if getHeader req "X-Shopify-Hmac-Sha256" = some (hmac secret req.body)
  then .next else .reject401

/-- The second copy's verifyShopifyWebhook, src/index.js lines 224-232:
it computes the HMAC over JSON.stringify(req.body), the re-serialized
parsed body, not the raw bytes; `reserialized` is that string. -/
def verifyShopifyWebhook2 (hmac : String → String → String) (secret : String)
    (reserialized : String) (hmacHeader : Option String) : Bool :=
  hmacHeader = some (hmac secret reserialized)

/-- The verifyFintrixWebhook middleware, src/index.js lines 42-53: a
placeholder that logs a warning and calls next() unconditionally. -/
def verifyFintrixWebhook (_req : RawRequest) : VerifyOutcome :=
  .next

/-- Outcome of the full /shopify-order-webhook route (raw body parser,
verifier, handler): 401 with the stores untouched, or the handler's
result. -/
inductive ShopifyPipelineResult where
  | unauthorized (st : ServerState)
  | handled (r : IntakeResult)
deriving DecidableEq, Repr

/-- The full /shopify-order-webhook route, src/index.js lines 57-104:
the verifier runs on the raw request before the handler; `parsed` is
the JSON.parse of the body, `now` and `reply` as in the handler. -/
def shopifyOrderPipeline (hmac : String → String → String) (secret : String)
    (st : ServerState) (req : RawRequest) (parsed : ShopifyOrder) (now : Nat)
    (reply : GatewayReply) : ShopifyPipelineResult :=
  match verifyShopifyWebhook hmac secret req with
  | .reject401 => .unauthorized st
  | .next => .handled (shopifyOrderWebhook st parsed now reply)

/-- Outcome of the full /payin-webhook route. -/
inductive PayinPipelineResult where
  | unauthorized
  | handled (r : PayinResult)
deriving DecidableEq, Repr

/-- The full /payin-webhook route, src/index.js lines 121-166: the
Fintrix verifier runs before the handler; `e` is the parsed JSON body
of `req`. -/
def payinPipeline (req : RawRequest) (e : PayinEvent) (reply : CaptureReply) :
    PayinPipelineResult :=
  match verifyFintrixWebhook req with
  | .reject401 => .unauthorized
  | .next => .handled (payinWebhook e reply)

/-- Response of GET /check-status. -/
inductive StatusResponse where
  | notFound
  | queryGateway (refId : String)
deriving DecidableEq, Repr

/-- The /check-status handler, src/index.js lines 170-190: look up the
refId for the order; when falsy respond 404, otherwise issue the
gateway status query with that refId. -/
def checkStatus (st : ServerState) (orderId : String) : StatusResponse :=
  match mapGet st.orderIdToRefId orderId with
  | none => .notFound
  | some refId => if refId = "" then .notFound else .queryGateway refId

/-- Deleting a key from a map makes a later lookup of that key miss. -/
theorem mapGet_mapDelete (m : List (String × String)) (k : String) :
    mapGet (mapDelete m k) k = none := by
  induction m with
  | nil => rfl
  | cons p rest ih =>
    by_cases hp : p.1 = k
    · simp [mapDelete, hp, ih]
    · simp [mapDelete, mapGet, hp, ih]

/-- A generated refId always starts with the three letters LIK, so it
is never the empty string. -/
theorem mkRefId_ne_empty (orderId : String) (now : Nat) :
    mkRefId orderId now ≠ "" := by
  intro h
  have hlen := congrArg String.length h
  simp [mkRefId, String.length_append] at hlen
  exact absurd hlen.1.1 (by decide)

/-- C1: the claim states that a success payment-result delivered twice
for the same orderId triggers at most one storefront capture call,
guarded by an order-status check.  The /payin-webhook handler performs
no such check and consults no state: delivering the same success event
twice issues a capture call on each delivery, two calls in total. -/
theorem duplicate_success_event_double_captures :
    (payinWebhook ⟨some "LIK10011700000000000", some "success", "25.00", "X1", "paid"⟩ .ok).response
      = .captured
    ∧ List.countP (fun r => r.captureCall.isSome)
        [payinWebhook ⟨some "LIK10011700000000000", some "success", "25.00", "X1", "paid"⟩ .ok,
         payinWebhook ⟨some "LIK10011700000000000", some "success", "25.00", "X1", "paid"⟩ .ok]
      = 2 := by
  decide

/-- C2: the claim states that intake writes the orderId-to-refId
mapping before calling the gateway and that a duplicate write aborts
the call.  In the code the gateway call precedes any store write (a
transport error leaves the mapping absent even though the call was
issued), and a second delivery of the same order event issues a second
gateway call even though the mapping from the first delivery exists. -/
theorem duplicate_intake_double_gateway_calls :
    (shopifyOrderWebhook ⟨[], []⟩
        ⟨"1001", "pending", some "+10000000000", none, "25.00", "https://s/u", none⟩
        1700000000000 .transportError).gatewayCalled = true
    ∧ (shopifyOrderWebhook ⟨[], []⟩
        ⟨"1001", "pending", some "+10000000000", none, "25.00", "https://s/u", none⟩
        1700000000000 .transportError).state.orderIdToRefId = []
    ∧ (shopifyOrderWebhook
        (shopifyOrderWebhook ⟨[], []⟩
          ⟨"1001", "pending", some "+10000000000", none, "25.00", "https://s/u", none⟩
          1700000000000 (.ok true "https://pay/1")).state
        ⟨"1001", "pending", some "+10000000000", none, "25.00", "https://s/u", none⟩
        1700000000001 (.ok true "https://pay/2")).gatewayCalled = true := by
  decide

/-- C3: the claim states that extracting the orderId back out of a
generated correlationRef recovers exactly the original orderId.  The
greedy digit pattern of /payin-webhook captures the orderId digits
together with the appended timestamp digits: for orderId 1001 at time
1700000000000 it recovers 10011700000000000, not 1001. -/
theorem extraction_roundtrip_fails :
    extractShopifyOrderId (mkRefId "1001" 1700000000000) = some "10011700000000000"
    ∧ extractShopifyOrderId (mkRefId "1001" 1700000000000) ≠ some "1001" := by
  decide

/-- C4: the claim states that refIds for two different orderIds are
never equal and that two refIds for the same orderId at the same
millisecond differ.  Plain concatenation without a separator makes
orderId 1 at time 11700000000000 collide with orderId 11 at time
1700000000000, and generation is a pure function of (orderId, time), so
the same orderId in the same millisecond yields the identical string. -/
theorem refId_not_injective :
    mkRefId "1" 11700000000000 = mkRefId "11" 1700000000000
    ∧ mkRefId "1001" 1700000000000 = mkRefId "1001" 1700000000000 := by
  decide

/-- C5: the claim states that a payment-result whose gateway order
identifier does not resolve through the Correlation Store is answered
with a client error and never captured.  The handler never consults the
store: any identifier matching the LIK-digits pattern — here LIK42, a
ref no intake ever issued — reaches the storefront capture call. -/
theorem forged_ref_reaches_capture :
    (payinWebhook ⟨some "LIK42", some "SUCCESS", "10.00", "U1", "m"⟩ .ok).response = .captured
    ∧ (payinWebhook ⟨some "LIK42", some "SUCCESS", "10.00", "U1", "m"⟩ .ok).captureCall
      = some "42" := by
  decide

/-- C6: an order-creation request whose raw-body HMAC does not equal
the signature header is answered 401 by the /shopify-order-webhook
route: the stores are returned untouched and the intake handler (hence
any outbound call) is never invoked. -/
theorem tampered_body_rejected (hmac : String → String → String) (secret : String)
    (st : ServerState) (req : RawRequest) (parsed : ShopifyOrder) (now : Nat)
    (reply : GatewayReply)
    (h : getHeader req "X-Shopify-Hmac-Sha256" ≠ some (hmac secret req.body)) :
    shopifyOrderPipeline hmac secret st req parsed now reply = .unauthorized st := by
  unfold shopifyOrderPipeline verifyShopifyWebhook
  rw [if_neg h]

/-- C6 witness: a concrete tampered request whose header does not match
the digest of the raw body is rejected with the stores untouched. -/
theorem tampered_body_rejected_witness :
    getHeader ⟨[("X-Shopify-Hmac-Sha256", "forged")], "tampered"⟩ "X-Shopify-Hmac-Sha256"
      ≠ some ((fun _ b => b) "secret" "tampered")
    ∧ shopifyOrderPipeline (fun _ b => b) "secret" ⟨[], []⟩
        ⟨[("X-Shopify-Hmac-Sha256", "forged")], "tampered"⟩
        ⟨"1001", "pending", some "+1", none, "25.00", "u", none⟩ 0 .transportError
      = .unauthorized ⟨[], []⟩ :=
  ⟨by decide, tampered_body_rejected _ _ _ _ _ _ _ (by decide)⟩

/-- C7 counterexample: an orderId with a stored payment link for which
the first GET /get-payment-url does not return the link.  The handler
tests JS truthiness, so a stored empty-string link is answered null and
is not removed, refuting the claim as stated for that input. -/
theorem payment_link_take_empty_counterexample :
    mapGet (ServerState.mk [("7", "")] []).paymentUrls "7" = some ""
    ∧ (getPaymentUrl ⟨[("7", "")], []⟩ "7").1 = .nullLink
    ∧ (getPaymentUrl ⟨[("7", "")], []⟩ "7").2 = ⟨[("7", "")], []⟩ := by
  decide

/-- C7 (amended): for every orderId with a stored nonempty payment
link, two consecutive GET /get-payment-url requests return the link
then null, the first request removing the link from the store; a
request for an orderId with no stored link returns null. -/
theorem payment_link_taken_once (st st2 : ServerState) (oid oid2 url : String)
    (hstored : mapGet st.paymentUrls oid = some url) (hne : url ≠ "")
    (habsent : mapGet st2.paymentUrls oid2 = none) :
    (getPaymentUrl st oid).1 = .link url
    ∧ (getPaymentUrl (getPaymentUrl st oid).2 oid).1 = .nullLink
    ∧ (getPaymentUrl st2 oid2).1 = .nullLink := by
  refine ⟨?_, ?_, ?_⟩
  · simp [getPaymentUrl, hstored, hne]
  · simp [getPaymentUrl, hstored, hne, mapGet_mapDelete]
  · simp [getPaymentUrl, habsent]

/-- C7 witness: a concrete store holding a link for orderId 7; the two
consecutive fetches return the link then null, and orderId 9 with no
stored link gets null. -/
theorem payment_link_taken_once_witness :
    (getPaymentUrl ⟨[("7", "https://pay/7")], []⟩ "7").1 = .link "https://pay/7"
    ∧ (getPaymentUrl (getPaymentUrl ⟨[("7", "https://pay/7")], []⟩ "7").2 "7").1 = .nullLink
    ∧ (getPaymentUrl ⟨[], []⟩ "9").1 = .nullLink :=
  payment_link_taken_once ⟨[("7", "https://pay/7")], []⟩ ⟨[], []⟩ "7" "9" "https://pay/7"
    (by decide) (by decide) (by decide)

/-- C8: the Fintrix-sender verification step passes every request
unconditionally — it never responds 401 — so the /payin-webhook route
always invokes the reconciliation handler on the parsed body. -/
theorem fintrix_verification_always_passes (req : RawRequest) (e : PayinEvent)
    (reply : CaptureReply) :
    verifyFintrixWebhook req = .next
    ∧ payinPipeline req e reply = .handled (payinWebhook e reply)
    ∧ payinPipeline req e reply ≠ .unauthorized := by
  refine ⟨rfl, rfl, ?_⟩
  simp [payinPipeline, verifyFintrixWebhook]

/-- C9: consuming the payment link leaves the orderId-to-refId mapping
unchanged; an orderId whose intake stored a generated refId is still
resolved by /check-status (the refId being nonempty), while an orderId
with no stored ref mapping is answered NotFound. -/
theorem take_preserves_ref_mapping (st st2 : ServerState) (oid oid2 oid3 : String)
    (t : Nat)
    (href : mapGet st.orderIdToRefId oid = some (mkRefId oid t))
    (habsent : mapGet st2.orderIdToRefId oid3 = none) :
    (getPaymentUrl st oid2).2.orderIdToRefId = st.orderIdToRefId
    ∧ checkStatus st oid = .queryGateway (mkRefId oid t)
    ∧ checkStatus st2 oid3 = .notFound := by
  refine ⟨?_, ?_, ?_⟩
  · cases hm : mapGet st.paymentUrls oid2 with
    | none => simp [getPaymentUrl, hm]
    | some url =>
      by_cases hu : url = "" <;> simp [getPaymentUrl, hm, hu]
  · simp [checkStatus, href, mkRefId_ne_empty]
  · simp [checkStatus, habsent]

/-- C9 witness: a state whose intake stored the refId generated for
orderId 1001 at time 5; taking the link keeps the ref mapping, the
status query resolves it, and orderId 9 with no mapping gets NotFound. -/
theorem take_preserves_ref_mapping_witness :
    (getPaymentUrl ⟨[("1001", "https://pay/1")], [("1001", mkRefId "1001" 5)]⟩ "1001").2.orderIdToRefId
      = [("1001", mkRefId "1001" 5)]
    ∧ checkStatus ⟨[("1001", "https://pay/1")], [("1001", mkRefId "1001" 5)]⟩ "1001"
      = .queryGateway (mkRefId "1001" 5)
    ∧ checkStatus ⟨[], []⟩ "9" = .notFound :=
  take_preserves_ref_mapping ⟨[("1001", "https://pay/1")], [("1001", mkRefId "1001" 5)]⟩
    ⟨[], []⟩ "1001" "1001" "9" 5 (by decide) (by decide)

/-- C10: when the gateway create-order call returns a non-success body
or fails with a transport error, the intake handler leaves both stores
exactly as they were; the two writes happen only in the branch where
the reply is a well-formed success. -/
theorem intake_failure_leaves_stores (st : ServerState) (o : ShopifyOrder)
    (now : Nat) (reply : GatewayReply)
    (h : reply = .transportError ∨ ∃ url, reply = .ok false url) :
    (shopifyOrderWebhook st o now reply).state.paymentUrls = st.paymentUrls
    ∧ (shopifyOrderWebhook st o now reply).state.orderIdToRefId = st.orderIdToRefId := by
  have hstate : (shopifyOrderWebhook st o now reply).state = st := by
    unfold shopifyOrderWebhook
    rcases h with h | ⟨url, h⟩ <;> subst h <;> split
    · rfl
    · cases hp : resolvePhone o <;> simp [hp]
    · rfl
    · cases hp : resolvePhone o <;> simp [hp]
  exact ⟨by rw [hstate], by rw [hstate]⟩

/-- C10 witness: a pending order with a phone whose gateway call fails
in transport; both stores come back exactly as before the call. -/
theorem intake_failure_leaves_stores_witness :
    (shopifyOrderWebhook ⟨[("1", "u")], [("1", "r")]⟩
        ⟨"1001", "pending", some "+1", none, "25.00", "u", none⟩ 7 .transportError).state.paymentUrls
      = [("1", "u")]
    ∧ (shopifyOrderWebhook ⟨[("1", "u")], [("1", "r")]⟩
        ⟨"1001", "pending", some "+1", none, "25.00", "u", none⟩ 7 .transportError).state.orderIdToRefId
      = [("1", "r")] :=
  intake_failure_leaves_stores ⟨[("1", "u")], [("1", "r")]⟩
    ⟨"1001", "pending", some "+1", none, "25.00", "u", none⟩ 7 .transportError (Or.inl rfl)

end Fintrix
